import Mathlib

/-!
Verification of the scan-orchestration engine of a distributed sensitive-data
scanner (a Python code base).  The Python functions relevant to the claims are
shallowly embedded as executable Lean definitions; stateful methods that talk
to the control plane over HTTP are modelled as pure functions from their
inputs (with I/O results supplied by explicit oracle parameters) to the
requests they emit and the resulting record states.

Python strings are modelled as Lean strings handled through their character
lists; Python `None` on optional fields is modelled with `Option`; `datetime`
values are modelled as abstract `Nat` timestamps.
-/

namespace PiiScanner

/-! ## Python string primitives -/

/-- Python regex class `[A-Za-z0-9]` used by `re.sub` in `mask_data`. -/
def pyIsAlnum (c : Char) : Bool :=
  ('A' ≤ c && c ≤ 'Z') || ('a' ≤ c && c ≤ 'z') || ('0' ≤ c && c ≤ '9')

/-- Embeds Python `re.sub('[A-Za-z0-9]', '*', s)`: every ASCII alphanumeric
character is replaced by an asterisk, all other characters are kept. -/
def maskAlnumList (s : List Char) : List Char :=
  s.map (fun c => if pyIsAlnum c then '*' else c)

/-- Python `str.split(sep)` for a one-character separator: splits at every
occurrence of the separator, always returning at least one (possibly empty)
part. -/
def splitOnSep (sep : Char) : List Char → List (List Char)
  | [] => [[]]
  | c :: cs =>
    match splitOnSep sep cs with
    | [] => if c = sep then [[], []] else [[c]]
    | r :: rs => if c = sep then [] :: r :: rs else (c :: r) :: rs

/-- Python substring membership test `needle in hay`. -/
def containsSub (hay needle : List Char) : Bool :=
  (List.range (hay.length + 1)).any (fun i => needle.isPrefixOf (hay.drop i))

/-- Python slice `s[a:b]` for non-negative bounds (clamping, empty when the
bounds cross). -/
def pySlice (s : List Char) (a b : Nat) : List Char :=
  (s.take b).drop a

theorem splitOnSep_ne_nil (sep : Char) (l : List Char) : splitOnSep sep l ≠ [] := by
  cases l with
  | nil => simp [splitOnSep]
  | cons c cs =>
    rw [splitOnSep]
    split <;> (split <;> simp)

theorem splitOnSep_length (sep : Char) (l : List Char) :
    (splitOnSep sep l).length = l.count sep + 1 := by
  induction l with
  | nil => simp [splitOnSep]
  | cons c cs ih =>
    rw [splitOnSep]
    split
    next heq => exact absurd heq (splitOnSep_ne_nil sep cs)
    next r rs heq =>
      rw [heq] at ih
      by_cases hc : c = sep
      · subst hc
        simp only [if_pos rfl] at ih ⊢
        simp [List.count_cons] at ih ⊢
        omega
      · simp only [if_neg hc] at ih ⊢
        simp [List.count_cons, hc] at ih ⊢
        omega

/-! ## Chunk and object statuses

Source: `app/schemas/file_data.py`, class `FileStatus`.
-/

inductive FileStatus where
  | IGNORED
  | WAIT_FOR_SCAN
  | RESCAN_IN_PROGRESS
  | SCANNED
  | IN_PROGRESS
  | SKIPPED
  | FAILED
  deriving DecidableEq, Repr

/-! ## Region derivation

Source: `app/services/data_analysis_service.py`, method
`DataAnalysisService._get_region` (static).  The Python code checks
`entity_type[:2]` against the exact prefixes US and IN; there is no branch for
any other prefix.
-/

/-- Embedding of `_get_region`: the Python body is
an if/elif chain on `entity_type[:2]` with cases for US and IN and an
unconditional else returning the string All. -/
def get_region (entity_type : String) : String :=
  if (entity_type.toList.take 2) = ['U', 'S'] then "USA"
  else if (entity_type.toList.take 2) = ['I', 'N'] then "India"
  else "All"

/-! ## Masking

Source: `app/services/data_analysis_service.py`, static method
`DataAnalysisService.mask_data`.  The whole body is wrapped in
`try/except Exception`: when anything inside raises (in practice the tuple
unpacking `username, domain = data.split('@')` when the value holds more than
one at-sign), the exception is logged and the `data` variable — still holding
the original value, since the unpacking failed before any assignment — is
returned unchanged.
-/

/-- Core of `mask_data` on character lists, mirroring the Python branch
structure.  The two-element match on `split('@')` models the tuple unpacking:
any other shape raises ValueError, which the surrounding `except` swallows,
returning the original data. -/
def maskDataCore (entity data : List Char) : List Char :=
  if data = [] then []
  else if containsSub entity "EMAIL".toList && data.contains '@' then
    match splitOnSep '@' data with
    | [_username, domain] =>
      if entity = "EMAIL_ADDRESS".toList then
        let tld := (splitOnSep '.' domain).getLastD []
        data.take 1 ++ maskAlnumList (pySlice data 1 (data.length - tld.length)) ++ tld
      else
        data.take 2 ++ maskAlnumList (pySlice data 2 (data.length - domain.length)) ++ domain
    | _ => data
  else if entity = "US_SSN".toList || entity = "PERSON".toList then
    if data.length ≤ 4 then
      data.take 1 ++ maskAlnumList (data.drop 1)
    else if data.length ≤ 6 then
      data.take 2 ++ maskAlnumList (data.drop 2)
    else
      data.take 2 ++ maskAlnumList (pySlice data 2 (data.length - 2)) ++ data.drop (data.length - 2)
  else maskAlnumList data

/-- Embedding of `mask_data` on strings. -/
def mask_data (entity data : String) : String :=
  (maskDataCore entity.toList data.toList).asString

/-! ## Finding content hash

Source: `app/services/data_analysis_service.py`, static method
`DataAnalysisService.hash_data`, which returns
`hashlib.sha384` of the UTF-8 encoded data, as a hexdigest.  SHA-384 is implemented
below from the FIPS 180-4 definition of the SHA-512 family, over `Nat` with
explicit reduction modulo `2 ^ 64`.
-/

/-- The modulus of 64-bit words. -/
def M64 : Nat := 18446744073709551616

/-- Right rotation of a 64-bit word. -/
def rotr64 (n x : Nat) : Nat :=
  ((x >>> n) ||| (x <<< (64 - n))) % M64

/-- SHA-512 big sigma-0. -/
def bSig0 (x : Nat) : Nat := (rotr64 28 x) ^^^ (rotr64 34 x) ^^^ (rotr64 39 x)

/-- SHA-512 big sigma-1. -/
def bSig1 (x : Nat) : Nat := (rotr64 14 x) ^^^ (rotr64 18 x) ^^^ (rotr64 41 x)

/-- SHA-512 small sigma-0. -/
def sSig0 (x : Nat) : Nat := (rotr64 1 x) ^^^ (rotr64 8 x) ^^^ (x >>> 7)

/-- SHA-512 small sigma-1. -/
def sSig1 (x : Nat) : Nat := (rotr64 19 x) ^^^ (rotr64 61 x) ^^^ (x >>> 6)

/-- SHA-512 choice function; the bitwise complement is taken against the
64-bit all-ones mask. -/
def chFn (x y z : Nat) : Nat := (x &&& y) ^^^ ((x ^^^ (M64 - 1)) &&& z)

/-- SHA-512 majority function. -/
def majFn (x y z : Nat) : Nat := (x &&& y) ^^^ (x &&& z) ^^^ (y &&& z)

/-- The eighty SHA-512 round constants. -/
def K512 : List Nat := [
  4794697086780616226, 8158064640168781261, 13096744586834688815,
  16840607885511220156, 4131703408338449720, 6480981068601479193,
  10538285296894168987, 12329834152419229976, 15566598209576043074,
  1334009975649890238, 2608012711638119052, 6128411473006802146,
  8268148722764581231, 9286055187155687089, 11230858885718282805,
  13951009754708518548, 16472876342353939154, 17275323862435702243,
  1135362057144423861, 2597628984639134821, 3308224258029322869,
  5365058923640841347, 6679025012923562964, 8573033837759648693,
  10970295158949994411, 12119686244451234320, 12683024718118986047,
  13788192230050041572, 14330467153632333762, 15395433587784984357,
  489312712824947311, 1452737877330783856, 2861767655752347644,
  3322285676063803686, 5560940570517711597, 5996557281743188959,
  7280758554555802590, 8532644243296465576, 9350256976987008742,
  10552545826968843579, 11727347734174303076, 12113106623233404929,
  14000437183269869457, 14369950271660146224, 15101387698204529176,
  15463397548674623760, 17586052441742319658, 1182934255886127544,
  1847814050463011016, 2177327727835720531, 2830643537854262169,
  3796741975233480872, 4115178125766777443, 5681478168544905931,
  6601373596472566643, 7507060721942968483, 8399075790359081724,
  8693463985226723168, 9568029438360202098, 10144078919501101548,
  10430055236837252648, 11840083180663258601, 13761210420658862357,
  14299343276471374635, 14566680578165727644, 15097957966210449927,
  16922976911328602910, 17689382322260857208, 500013540394364858,
  748580250866718886, 1242879168328830382, 1977374033974150939,
  2944078676154940804, 3659926193048069267, 4368137639120453308,
  4836135668995329356, 5532061633213252278, 6448918945643986474,
  6902733635092675308, 7801388544844847127]

/-- The SHA-384 initial hash value. -/
def H384 : List Nat := [
  14680500436340154072, 7105036623409894663,
  10473403895298186519, 1526699215303891257,
  7436329637833083697, 10282925794625328401,
  15784041429090275239, 5167115440072839076]

/-- Extends the sixteen message words of one block to the eighty scheduled
words. -/
def extendW (w : Array Nat) : Array Nat :=
  (List.range 64).foldl (fun w j =>
    let t := j + 16
    w.push ((sSig1 (w.getD (t - 2) 0) + w.getD (t - 7) 0 +
             sSig0 (w.getD (t - 15) 0) + w.getD (t - 16) 0) % M64)) w

/-- One SHA-512 compression round on the eight-word working state. -/
def sha512Round (state : List Nat) (kw : Nat × Nat) : List Nat :=
  match state with
  | [a, b, c, d, e, f, g, h] =>
    let t1 := (h + bSig1 e + chFn e f g + kw.1 + kw.2) % M64
    let t2 := (bSig0 a + majFn a b c) % M64
    [(t1 + t2) % M64, a, b, c, (d + t1) % M64, e, f, g]
  | s => s

/-- Processes one 16-word block, returning the updated eight-word hash
state. -/
def processBlock (h : List Nat) (block : List Nat) : List Nat :=
  let w := extendW block.toArray
  let final := (K512.zip w.toList).foldl sha512Round h
  (h.zip final).map (fun p => (p.1 + p.2) % M64)

/-- Big-endian byte rendering of a value on a fixed number of bytes. -/
def beBytes (n v : Nat) : List Nat :=
  (List.range n).map (fun i => (v >>> ((n - 1 - i) * 8)) &&& 255)

/-- SHA-512-family padding: a 0x80 byte, zeroes, then the bit length on
sixteen bytes, reaching a multiple of 128 bytes. -/
def padMessage (msg : List Nat) : List Nat :=
  msg ++ [0x80] ++ List.replicate ((128 - ((msg.length + 17) % 128)) % 128) 0
      ++ beBytes 16 (msg.length * 8)

/-- Groups a list of bytes into 64-bit big-endian words. -/
def bytesToWords : List Nat → List Nat
  | b0 :: b1 :: b2 :: b3 :: b4 :: b5 :: b6 :: b7 :: rest =>
    (((((((b0 <<< 8 ||| b1) <<< 8 ||| b2) <<< 8 ||| b3) <<< 8 ||| b4) <<< 8
        ||| b5) <<< 8 ||| b6) <<< 8 ||| b7) :: bytesToWords rest
  | _ => []

/-- Folds the compression function over a word list taken sixteen words at a
time; padding guarantees the word count is a multiple of sixteen. -/
def foldBlocks (h : List Nat) : List Nat → List Nat
  | w0 :: w1 :: w2 :: w3 :: w4 :: w5 :: w6 :: w7 ::
    w8 :: w9 :: w10 :: w11 :: w12 :: w13 :: w14 :: w15 :: rest =>
    foldBlocks (processBlock h
      [w0, w1, w2, w3, w4, w5, w6, w7, w8, w9, w10, w11, w12, w13, w14, w15]) rest
  | _ => h

/-- SHA-384 of a byte list: the first six words of the final SHA-512 state
started from the SHA-384 initial value. -/
def sha384Words (msg : List Nat) : List Nat :=
  (foldBlocks H384 (bytesToWords (padMessage msg))).take 6

/-- UTF-8 encoding of one character, as the Python UTF-8 string encoding does. -/
def utf8EncodeChar (c : Char) : List Nat :=
  let n := c.toNat
  if n < 0x80 then [n]
  else if n < 0x800 then [0xC0 ||| (n >>> 6), 0x80 ||| (n &&& 0x3F)]
  else if n < 0x10000 then
    [0xE0 ||| (n >>> 12), 0x80 ||| ((n >>> 6) &&& 0x3F), 0x80 ||| (n &&& 0x3F)]
  else
    [0xF0 ||| (n >>> 18), 0x80 ||| ((n >>> 12) &&& 0x3F),
     0x80 ||| ((n >>> 6) &&& 0x3F), 0x80 ||| (n &&& 0x3F)]

/-- UTF-8 encoding of a string. -/
def utf8Bytes (s : String) : List Nat :=
  s.toList.flatMap utf8EncodeChar

/-- Lower-case hex digit. -/
def hexDigit (n : Nat) : Char :=
  "0123456789abcdef".toList.getD n '0'

/-- Sixteen-digit lower-case hex rendering of a 64-bit word. -/
def hexOfWord (w : Nat) : String :=
  ((List.range 16).map (fun i => hexDigit ((w >>> ((15 - i) * 4)) &&& 15))).asString

/-- Hex digest of SHA-384 over the UTF-8 encoding of a string. -/
def sha384Hex (s : String) : String :=
  String.join ((sha384Words (utf8Bytes s)).map hexOfWord)

/-- Embedding of `DataAnalysisService.hash_data`:
SHA-384 hexdigest of the UTF-8 encoded data. -/
def hash_data (data : String) : String :=
  sha384Hex data

set_option maxRecDepth 100000 in
/-- Validation of the SHA-384 embedding against the FIPS 180-4 test vector
for the three-byte message abc. -/
theorem sha384_validates_on_fips_vector :
    hash_data "abc" =
      "cb00753f45a35e8bb5a03d699ac65007272c32ab0eded1631a8b605a43ff5bed8086072ba1e7cc2358baeca134c825a7" := by
  rfl

/-! ## Chunk records

Source: `app/schemas/file_data.py`.  `DataChunkUpdate` is the pydantic model
used both for the conditional status lease and for the final PUT of a scanned
chunk; every field except `sensitive_data` defaults to `None`, while
`sensitive_data` defaults to the empty list.
-/

structure DataChunkUpdate where
  id : Option String := none
  object_name : Option String := none
  fetch_path : Option String := none
  offset : Option String := none
  limit : Option Nat := none
  scanned_at : Option Nat := none
  is_phi : Option Bool := none
  status : Option FileStatus := none
  hash : Option String := none
  sensitive_data : List String := []
  metadata_id : Option String := none
  instance_id : Option String := none
  latest_data_type : Option Nat := none
  deriving DecidableEq, Repr

/-- Python `int(s)` on the numeric offset strings used by the chunk records
(every offset is rendered by `str` of a non-negative integer, so a plain
decimal-digit fold suffices). -/
def pyInt (s : String) : Nat :=
  s.toList.foldl (fun acc c => acc * 10 + (c.toNat - 48)) 0

/-! ## Finalising a chunk

Source: `app/services/base_scan_service.py`, static method
`BaseScanService.save_chunk`.  The Python builds
`DataChunkUpdate(scanned_at=datetime.utcnow(), status=FileStatus.SCANNED,
**content.current_chunk.dict(exclude_none=True,
exclude={status, scanned_at, sensitive_data}))`: every field of the current
chunk other than `status`, `scanned_at` and `sensitive_data` is carried over
unchanged (a `None` field is excluded from the dict and therefore takes the
model default `None` again), `status` becomes `SCANNED`, `scanned_at` becomes
the current time, and `sensitive_data` takes its default empty list.  No
chunk-body hash is computed here: `hash_data_chunk` exists on the class but
has no caller, so the `hash` field keeps whatever value the chunk record
already had. -/
def save_chunk (current : DataChunkUpdate) (now : Nat) : DataChunkUpdate :=
  { current with
    status := some FileStatus.SCANNED
    scanned_at := some now
    sensitive_data := [] }

/-! ## Fetched chunk content and the validity guard

Source: `app/services/base_scan_service.py`, static method
`BaseScanService.is_not_valid_chunk`.  Fetched content is either `None`, a
Python string, or a pandas dataframe; a dataframe is modelled as its grid of
cells, a cell being NaN or a value.
-/

inductive PyCell where
  | nan
  | val (s : String)
  deriving DecidableEq, Repr

inductive PyData where
  | pyNone
  | str (s : String)
  | dataframe (rows : List (List PyCell))
  deriving DecidableEq, Repr

/-- A dataframe whose every cell is NaN. -/
def isAllNaN (rows : List (List PyCell)) : Bool :=
  rows.all (fun r => r.all (fun c => match c with | .nan => true | .val _ => false))

/-- Embedding of `is_not_valid_chunk`, which returns
`any((isinstance(chunk, str) and not chunk, isinstance(chunk, DataFrame) and
not chunk.bool, isinstance(chunk, NoneType)))`.  For a string the test is
emptiness; for `None` it is true.  For a dataframe the Python expression
`not chunk.bool` is an attribute access, not a call: `chunk.bool` is the bound
method object, which is always truthy, so the dataframe conjunct is `False`
for every dataframe, whatever its cells hold. -/
def is_not_valid_chunk : PyData → Bool
  | .pyNone => true
  | .str s => s = ""
  | .dataframe _ => false

/-! ## The per-chunk scan pipeline as an event trace

Sources: `app/services/base_scan_service.py`, methods `analyze_content_data`,
`scanning_update_status` and `save_chunk`; `app/worker_tasks/
multiprocessing_tasks.py`, coroutine `run_scanner`.  The side effects (HTTP
requests to the control plane and connector fetches) are recorded as an event
list; results of the external calls are supplied as oracle parameters: the
truthiness of the lease PATCH result, the fetched data, the PHI regex-search
result, and the batches produced by the classifier generator.
-/

inductive ScanEvent where
  | leaseRequest (chunkId : Option String) (requiredStatus newStatus : FileStatus)
      (scannerId : String)
  | fetchData (objFetchPath : String) (chunkFetchPath : Option String)
      (limit : Option Nat) (offset : Nat)
  | phiProbe (objectName : String) (result : Bool)
  | reportFindings (batch : List String)
  | putChunk (chunk : DataChunkUpdate)
  | updateLastScanned (t : Nat)
  deriving DecidableEq, Repr

/-- Embedding of `analyze_content_data`: fetch the chunk data; if
`is_not_valid_chunk` holds, go straight to `save_chunk`; otherwise clear the
hash when in rescan mode, set the PHI flag, emit every non-empty batch of the
classifier generator to the sensitive-data endpoint, and finish with
`save_chunk`. -/
def analyze_content_data (rescanMode : Bool) (phiResult : Bool)
    (scanBatches : List (List String)) (fetchResult : PyData)
    (objectName objFetchPath : String) (chunk : DataChunkUpdate) (now : Nat) :
    List ScanEvent :=
  ScanEvent.fetchData objFetchPath chunk.fetch_path chunk.limit
      (pyInt (chunk.offset.getD "")) ::
  if is_not_valid_chunk fetchResult then
    [ScanEvent.putChunk (save_chunk chunk now)]
  else
    let chunk1 := if rescanMode then { chunk with hash := none } else chunk
    let chunk2 := { chunk1 with is_phi := some phiResult }
    ScanEvent.phiProbe objectName phiResult ::
      ((scanBatches.filter (fun b => b ≠ [])).map ScanEvent.reportFindings
        ++ [ScanEvent.putChunk (save_chunk chunk2 now)])

/-- Embedding of `run_scanner`: set `latest_data_type` on the chunk, attempt
the conditional status update `WAIT_FOR_SCAN -> IN_PROGRESS` filtered on the
chunk id and on status `WAIT_FOR_SCAN` (`scanning_update_status` with
`filter_params={status: WAIT_FOR_SCAN}`), and — only when the update result is
truthy — run `analyze_content_data` followed by the last-scanned bookkeeping
PUT. -/
def run_scanner (leaseGranted : Bool) (latestDataType : Option Nat)
    (scannerId : String) (rescanMode phiResult : Bool)
    (scanBatches : List (List String)) (fetchResult : PyData)
    (objectName objFetchPath : String) (chunk : DataChunkUpdate) (now : Nat) :
    List ScanEvent :=
  let chunk := { chunk with latest_data_type := latestDataType }
  ScanEvent.leaseRequest chunk.id FileStatus.WAIT_FOR_SCAN FileStatus.IN_PROGRESS
      scannerId ::
  if leaseGranted then
    analyze_content_data rescanMode phiResult scanBatches fetchResult
      objectName objFetchPath chunk now ++ [ScanEvent.updateLastScanned now]
  else []

/-! ## Control-plane client retry policy

Source: `app/send_request.py`, coroutine `make_request`.  The response
handling is an if/elif chain on `response.status`; the recursion, the token
refresh and the one-second sleep are abstracted into the action taken for a
given `(status, attempt)` pair.
-/

inductive RequestAction where
  | returnNone
  | refreshRetry
  | giveUpNone
  | sleepRetry
  | returnBody
  deriving DecidableEq, Repr

/-- Embedding of the status dispatch in `make_request`: `404`/`422` return
`None`; `401` refreshes the token and retries unless this is already the
second retry; `424` or a status strictly greater than `500` sleeps one second
and retries with the attempt counter reset; any other status has its JSON
body returned. -/
def make_request_action (status attempt : Nat) : RequestAction :=
  if status = 404 ∨ status = 422 then RequestAction.returnNone
  else if status = 401 then
    (if attempt = 2 then RequestAction.giveUpNone else RequestAction.refreshRetry)
  else if status = 424 ∨ 500 < status then RequestAction.sleepRetry
  else RequestAction.returnBody

/-! ## File chunk plans

Source: `app/services/file_service.py` (`create_file_chunks`,
`collect_file_chunks`, `get_uncompressed_size`, `check_archive_memory_cost`)
together with the constants of `app/core/config.py` and the free-disk check of
`app/services/utils/disk_usage.py`.
-/

def UNSUPPORTED_EXTENSIONS : List String :=
  [".png", ".jpg", ".jpeg", ".gif", ".bmp", ".svg", ".tif", ".tiff", ".ico",
   ".mbox", ".webm"]

def ARCHIVE_EXTENSIONS : List String := [".zip", ".tar", ".tar.gz", ".tar.bz2"]

def CONTAINER_TYPES : List String := [".csv", ".doc", ".docx", ".xlsx", ".xls", ".pdf"]

/-- `settings.CHUNK_BYTES_CAPACITY`: one million bytes per file chunk. -/
def CHUNK_BYTES_CAPACITY : Nat := 1000000

/-- Python `str.endswith(tuple)`, at code-point level. -/
def endsWithAny (s : String) (exts : List String) : Bool :=
  exts.any (fun e => e.toList.isSuffixOf s.toList)

/-- The last element of Python `s.rsplit(sep)` for a non-empty separator: the
suffix after the rightmost occurrence of the separator, or the whole string
when the separator does not occur. -/
def pyRsplitLast (sep s : List Char) : List Char :=
  match ((List.range (s.length + 1)).filter
      (fun i => sep.isPrefixOf (s.drop i))).getLast? with
  | none => s
  | some i => s.drop (i + sep.length)

/-- A chunk record as instantiated by `create_file_chunks` (schema `DataChunk`
with the fields the constructor call supplies; `status` takes the schema
default `WAIT_FOR_SCAN`, `hash` stays unset). -/
structure DataChunk where
  object_name : String
  fetch_path : String
  offset : String
  limit : Nat
  status : FileStatus := FileStatus.WAIT_FOR_SCAN
  hash : Option String := none
  instance_id : String
  deriving DecidableEq, Repr

/-- Embedding of `create_file_chunks`.  `containerSize` supplies the size of
the extracted text representation computed by `get_content_size` for
container formats (`None` models a falsy `read_data` result, which makes the
method return an empty chunk list early).  Python computes the chunk count as
`math.ceil(size / CHUNK_BYTES_CAPACITY)` on float division; this is the exact
ceiling for every realistic object size and is modelled as the exact ceiling
on naturals. -/
def create_file_chunks (containerSize : Option Nat) (scannerId : String)
    (fetch_path object_name : String) (size : Nat) : List DataChunk :=
  if endsWithAny object_name UNSUPPORTED_EXTENSIONS then []
  else
    match (if endsWithAny fetch_path CONTAINER_TYPES then containerSize else some size) with
    | none => []
    | some size =>
      if size = 0 then []
      else
        (List.range ((size + CHUNK_BYTES_CAPACITY - 1) / CHUNK_BYTES_CAPACITY)).map
          (fun i =>
            { object_name := (pyRsplitLast "::".toList fetch_path.toList).asString
              fetch_path := fetch_path
              offset := toString (i * CHUNK_BYTES_CAPACITY)
              limit := CHUNK_BYTES_CAPACITY
              instance_id := scannerId })

/-- One member listing entry of an archive: a plain file of a given
uncompressed size, or a nested archive member whose stored entry size is
`size` and whose own listing is `inner`. -/
inductive ArchiveEntry where
  | file (size : Nat)
  | nested (size : Nat) (inner : List ArchiveEntry)

mutual
/-- Embedding of `get_uncompressed_size`: the sum over the member listing of
each member size, where a member that is itself an archive additionally
contributes its recursively computed total. -/
def get_uncompressed_size : List ArchiveEntry → Nat
  | [] => 0
  | e :: es => entry_uncompressed_size e + get_uncompressed_size es

def entry_uncompressed_size : ArchiveEntry → Nat
  | .file s => s
  | .nested s inner => s + get_uncompressed_size inner
end

/-- Embedding of `disk_usage.check_archive_size`: true exactly when the free
space is strictly greater than the size. -/
def check_archive_size (free size : Nat) : Bool := size < free

/-- Object metadata as it enters chunk collection (the `ObjectContents`
fields `collect_file_chunks` reads and writes). -/
structure ObjectContent where
  full_path : String
  object_name : String
  fetch_path : String
  size : Nat
  status : FileStatus := FileStatus.WAIT_FOR_SCAN
  data_chunks : List DataChunk := []
  deriving DecidableEq, Repr

/-- File-system and connector environment for chunk collection: the scanner
instance id; `INITIAL_DISK_SPACE` sampled at startup; the free disk space at
archive-inspection time; the archive listing returned by `read_data` (`none`
models a falsy read); the `(fetch_path, object_name, on-disk size)` triples
yielded by `unpack_archive_locally`; and the extracted-text sizes of
container-format files. -/
structure FsEnv where
  scannerId : String
  initialDiskSpace : Nat
  freeDisk : Nat
  readData : String → Option (List ArchiveEntry)
  extracted : List (String × String × Nat)
  containerSize : String → Option Nat

/-- The tail of `collect_file_chunks`: when the collected chunk list is empty
the object is marked `SCANNED`, otherwise it keeps its status. -/
def finishChunks (c : ObjectContent) : Option ObjectContent :=
  if c.data_chunks = [] then some { c with status := FileStatus.SCANNED } else some c

/-- Embedding of `collect_file_chunks`.  A zero-size object is immediately
`SCANNED` with no chunks.  For an archive: when the compressed object size
reaches `INITIAL_DISK_SPACE` the object is `SKIPPED`; a falsy `read_data`
aborts with `None`; when `check_archive_memory_cost` — the free-disk check on
the recursively computed uncompressed total — is falsy, the method logs that
the object is temporarily skipped and returns `None` without touching the
status; otherwise the archive is unpacked and each extracted file contributes
its own chunk sequence.  A non-archive object gets its chunk plan from
`create_file_chunks` directly. -/
def collect_file_chunks (env : FsEnv) (content : ObjectContent) :
    Option ObjectContent :=
  if content.size = 0 then some { content with status := FileStatus.SCANNED }
  else if endsWithAny content.fetch_path ARCHIVE_EXTENSIONS then
    if env.initialDiskSpace ≤ content.size then
      some { content with status := FileStatus.SKIPPED }
    else
      match env.readData content.fetch_path with
      | none => none
      | some archive =>
        if check_archive_size env.freeDisk (get_uncompressed_size archive) then
          finishChunks { content with
            data_chunks := env.extracted.flatMap (fun f =>
              create_file_chunks (env.containerSize f.1) env.scannerId f.1 f.2.1 f.2.2) }
        else none
  else
    finishChunks { content with
      data_chunks := create_file_chunks (env.containerSize content.fetch_path)
        env.scannerId content.fetch_path content.object_name content.size }

/-! ## Source diff and chunk reconciliation

Source: `app/services/base_scan_service.py`, methods
`remove_deleted_files_from_db`, `remove_deleted_metadata`,
`remove_deleted_chunks`, `update_metadata_existing_chunks` and
`create_newly_added_chunks`.  The control-plane state (the stored metadata
with their chunk dictionaries) is carried explicitly; deletions followed by
the `load_stored_metadata` reload are modelled as filtering; the batch PATCH
of changed chunks is applied to the carried state; object full paths are
assumed unique within a source, as the dictionaries keyed on them require.
-/

/-- A chunk dictionary of a stored metadata record (an element of
`FileMetadata.chunks`), with the keys the diff reads. -/
structure DbChunk where
  id : String
  offset : String
  hash : Option String
  status : FileStatus
  scanned_at : Option Nat := none
  labels : Option (List String) := none
  instance_id : Option String := none
  deriving DecidableEq, Repr

/-- A stored metadata record with the fields the diff reads. -/
structure FileMeta where
  id : String
  file_full_path : String
  file_size : Nat
  chunks : List DbChunk
  deriving DecidableEq, Repr

/-- Python f-string interpolation of an optional hash: `None` renders as the
four-character string None. -/
def hashRepr : Option String → String
  | none => "None"
  | some h => h

/-- Embedding of `remove_deleted_metadata` followed by the reload: stored
records whose full path no longer appears at the source are deleted (the
control plane cascades their chunks and findings). -/
def remove_deleted_metadata (stored : List FileMeta)
    (fetched : List ObjectContent) : List FileMeta :=
  stored.filter (fun m => fetched.any (fun o => o.full_path = m.file_full_path))

/-- Embedding of `remove_deleted_chunks` followed by the reload: the stored
chunks whose `full_path ++ offset` key is absent from the source chunk plans
are deleted; the set of deleted keys is returned for the later per-object
passes. -/
def remove_deleted_chunks (stored : List FileMeta)
    (fetched : List ObjectContent) : List FileMeta × List String :=
  let srcKeys := fetched.flatMap
    (fun o => o.data_chunks.map (fun c => o.full_path ++ c.offset))
  (stored.map (fun m =>
      { m with chunks := (m.chunks.filter
          (fun c => srcKeys.contains (m.file_full_path ++ c.offset))) }),
   stored.flatMap (fun m =>
      (m.chunks.filter
          (fun c => !(srcKeys.contains (m.file_full_path ++ c.offset)))).map
        (fun c => m.file_full_path ++ c.offset)))

/-- The update applied by `update_metadata_existing_chunks` to every changed
chunk: hash, scan time and labels cleared, instance id set to this scanner,
status back to `WAIT_FOR_SCAN`. -/
def resetChunk (scannerId : String) (c : DbChunk) : DbChunk :=
  { c with
    hash := none
    scanned_at := none
    labels := none
    instance_id := some scannerId
    status := FileStatus.WAIT_FOR_SCAN }

/-- The per-object body of the loop in `remove_deleted_files_from_db`:
objects without a stored record, or whose stored size equals the discovered
size, are skipped outright.  For the others, every non-tombstoned source
chunk is fetched and hashed with `hash_data` into a
`full_path,offset,hash` key; stored chunks whose `full_path,offset,hash` key
is not among the recomputed keys are reset (`update_metadata_existing_chunks`),
and recomputed keys matching no stored key create chunks at offsets not
already covered by an update (`create_newly_added_chunks`).  Returns the
updated stored state, the reset chunk ids, and the created chunks tagged with
the metadata id. -/
def diffOneObject (fetch : String → String → Option Nat → Nat → String)
    (scannerId : String) (deleted : List String) (stored : List FileMeta)
    (obj : ObjectContent) : List FileMeta × List String × List (String × DataChunk) :=
  match stored.find? (fun m => m.file_full_path = obj.full_path) with
  | none => (stored, [], [])
  | some meta =>
    if meta.file_size = obj.size then (stored, [], [])
    else
      let object_chunks := (obj.data_chunks.filter
          (fun c => !(deleted.contains (obj.full_path ++ c.offset)))).map
        (fun c => obj.full_path ++ "," ++ c.offset ++ "," ++
          hash_data (fetch obj.fetch_path c.fetch_path (some c.limit) (pyInt c.offset)))
      let metadata_chunks := (meta.chunks.filter
          (fun c => !(deleted.contains (meta.file_full_path ++ c.offset)))).map
        (fun c => (meta.file_full_path ++ "," ++ c.offset ++ "," ++ hashRepr c.hash,
                   c.id ++ "," ++ meta.id))
      let updatedKeys := (metadata_chunks.map Prod.fst).filter
        (fun k => !(object_chunks.contains k))
      let resetIds := (metadata_chunks.filter
          (fun kv => updatedKeys.contains kv.1)).map
        (fun kv => ((splitOnSep ',' kv.2.toList).headD []).asString)
      let filteredCreate := object_chunks.filter
        (fun c => !((metadata_chunks.map Prod.fst).contains c))
      let offsetsToUpdate := updatedKeys.map
        (fun k => ((splitOnSep ',' k.toList).getD 1 []).asString)
      let offsetsToCreate := (filteredCreate.map
          (fun c => ((splitOnSep ',' c.toList).getD 1 []).asString)).filter
        (fun o => !(offsetsToUpdate.contains o))
      let created := (obj.data_chunks.filter
          (fun c => offsetsToCreate.contains c.offset)).map (fun c => (meta.id, c))
      let stored1 := stored.map (fun m =>
        if m.file_full_path = obj.full_path then
          { m with
            file_size := obj.size
            chunks := m.chunks.map (fun c =>
              if resetIds.contains c.id then resetChunk scannerId c else c) }
        else m)
      (stored1, resetIds, created)

/-- Outcome of one diff round: the stored state after deletions and chunk
updates, the ids of the chunks reset to `WAIT_FOR_SCAN`, and the chunks
created (tagged with their metadata id). -/
structure DiffOutcome where
  stored : List FileMeta
  resetChunkIds : List String
  createdChunks : List (String × DataChunk)
  deriving DecidableEq, Repr

/-- Embedding of `remove_deleted_files_from_db`: a no-op when no metadata is
stored; otherwise the object tombstone sweep, the chunk tombstone sweep, and
the per-object content diff in source order. -/
def remove_deleted_files_from_db (fetch : String → String → Option Nat → Nat → String)
    (scannerId : String) (stored : List FileMeta) (fetched : List ObjectContent) :
    DiffOutcome :=
  if stored = [] then ⟨stored, [], []⟩
  else
    let stored1 := remove_deleted_metadata stored fetched
    let p := remove_deleted_chunks stored1 fetched
    let r := fetched.foldl (fun acc obj =>
      let q := diffOneObject fetch scannerId p.2 acc.1 obj
      (q.1, acc.2.1 ++ q.2.1, acc.2.2 ++ q.2.2)) (p.1, [], [])
    ⟨r.1, r.2.1, r.2.2⟩

/-! ## Theorems -/

theorem asString_toList (s : String) : s.toList.asString = s := by
  cases s
  rfl

/-- C9 counterexample: the claim says a classifier name starting with UK
derives the region UK, but `_get_region` has no UK branch — a UK-prefixed
name falls through to the default and derives the region All. -/
theorem uk_region_derives_all :
    get_region "UK_NINO" = "All" ∧ get_region "UK_NINO" ≠ "UK" := by
  decide

/-- C9 (amended): the region derived from a classifier name is USA when the
name starts with US, India when it starts with IN, and All in every other
case — including names starting with UK. -/
theorem get_region_cases (name : String) :
    (name.toList.take 2 = ['U', 'S'] → get_region name = "USA") ∧
    (name.toList.take 2 = ['I', 'N'] → get_region name = "India") ∧
    (name.toList.take 2 ≠ ['U', 'S'] → name.toList.take 2 ≠ ['I', 'N'] →
      get_region name = "All") := by
  refine ⟨fun h => ?_, fun h => ?_, fun h1 h2 => ?_⟩
  · unfold get_region
    rw [if_pos h]
  · unfold get_region
    have hne : ¬ name.toList.take 2 = ['U', 'S'] := by
      rw [h]
      decide
    rw [if_neg hne, if_pos h]
  · unfold get_region
    rw [if_neg h1, if_neg h2]

/-- Witness for the C9 amended theorem at concrete classifier names. -/
theorem get_region_cases_witness :
    get_region "US_SSN" = "USA" ∧ get_region "IN_PAN" = "India" ∧
      get_region "UK_NINO" = "All" :=
  ⟨(get_region_cases "US_SSN").1 (by decide),
   (get_region_cases "IN_PAN").2.1 (by decide),
   (get_region_cases "UK_NINO").2.2 (by decide) (by decide)⟩

/-- C4 counterexample: the claim says any 5xx response is retried, but the
dispatch in `make_request` retries only on a status strictly greater than 500
(or 424): a response with status exactly 500 has its body returned to the
caller. -/
theorem status_500_body_returned :
    make_request_action 500 0 = RequestAction.returnBody ∧
    make_request_action 500 0 ≠ RequestAction.sleepRetry := by
  decide

/-- C4 (amended): the client sleeps one second and retries exactly on 424 and
on statuses strictly greater than 500, while a response with status 500 has
its body returned. -/
theorem make_request_retry_policy (status attempt : Nat)
    (h : status = 424 ∨ 500 < status) :
    make_request_action status attempt = RequestAction.sleepRetry ∧
    make_request_action 500 attempt = RequestAction.returnBody := by
  constructor
  · have h404 : ¬(status = 404 ∨ status = 422) := by omega
    have h401 : status ≠ 401 := by omega
    simp [make_request_action, h404, h401, h]
  · simp [make_request_action]

/-- Witness for the C4 amended theorem at statuses 503 and 500. -/
theorem make_request_retry_policy_witness :
    make_request_action 503 0 = RequestAction.sleepRetry ∧
    make_request_action 500 0 = RequestAction.returnBody :=
  ⟨(make_request_retry_policy 503 0 (by omega)).1,
   (make_request_retry_policy 503 0 (by omega)).2⟩

/-- C5 (code bug): `is_not_valid_chunk` detects null content and the empty
string, but its dataframe conjunct `not chunk.bool` tests the truthiness of
the bound method object `chunk.bool` instead of calling an emptiness check,
so it is false for every dataframe: an all-NaN dataframe passes the guard and
the pipeline proceeds to the PHI probe and classification instead of jumping
to the finalisation with empty findings. -/
theorem all_nan_dataframe_passes_guard :
    is_not_valid_chunk PyData.pyNone = true ∧
    is_not_valid_chunk (PyData.str "") = true ∧
    isAllNaN [[PyCell.nan]] = true ∧
    is_not_valid_chunk (PyData.dataframe [[PyCell.nan]]) = false ∧
    (analyze_content_data false true [] (PyData.dataframe [[PyCell.nan]])
        "f.csv" "bucket/f.csv" {} 7).any
      (fun e => match e with | ScanEvent.phiProbe _ _ => true | _ => false) = true := by
  decide

/-- C3: the worker first issues the conditional status update
`WAIT_FOR_SCAN -> IN_PROGRESS` filtered on the chunk id and on status
`WAIT_FOR_SCAN`, and when that update reports a falsy result the worker emits
nothing further: no fetch, no classification, no findings. -/
theorem lease_denied_skips_chunk (leaseGranted : Bool) (latestDataType : Option Nat)
    (scannerId : String) (rescanMode phiResult : Bool)
    (scanBatches : List (List String)) (fetchResult : PyData)
    (objectName objFetchPath : String) (chunk : DataChunkUpdate) (now : Nat) :
    ((run_scanner leaseGranted latestDataType scannerId rescanMode phiResult
        scanBatches fetchResult objectName objFetchPath chunk now).head? =
      some (ScanEvent.leaseRequest chunk.id FileStatus.WAIT_FOR_SCAN
        FileStatus.IN_PROGRESS scannerId)) ∧
    (leaseGranted = false →
      run_scanner leaseGranted latestDataType scannerId rescanMode phiResult
          scanBatches fetchResult objectName objFetchPath chunk now =
        [ScanEvent.leaseRequest chunk.id FileStatus.WAIT_FOR_SCAN
          FileStatus.IN_PROGRESS scannerId]) := by
  constructor
  · simp [run_scanner]
  · intro h
    subst h
    simp [run_scanner]

/-- Witness for the C3 theorem on a concrete denied lease. -/
theorem lease_denied_skips_chunk_witness :
    run_scanner false none "sid" false false [] PyData.pyNone "obj" "path"
        { id := some "ck1" } 3 =
      [ScanEvent.leaseRequest (some "ck1") FileStatus.WAIT_FOR_SCAN
        FileStatus.IN_PROGRESS "sid"] :=
  (lease_denied_skips_chunk false none "sid" false false [] PyData.pyNone "obj"
    "path" { id := some "ck1" } 3).2 rfl

/-- C2 counterexample: a chunk with no stored hash goes through the full
pipeline on valid content (it is fetched, PHI-probed, classified, and a
findings batch is reported), yet the finalised record still carries no hash —
the pipeline never computes a body hash (`hash_data_chunk` has no caller), so
the finalised hash is not the chunk body hash and hash presence does not
follow from having passed the pipeline. -/
theorem scanned_chunk_hash_stays_none :
    (analyze_content_data false true [["f1"]] (PyData.str "hello") "obj" "path"
        { id := some "c1", offset := some "0", hash := none } 5).getLast? =
      some (ScanEvent.putChunk
        { id := some "c1", offset := some "0", hash := none, is_phi := some true,
          status := some FileStatus.SCANNED, scanned_at := some 5 }) := by
  decide

/-- C2 (amended): finalising a chunk sets status `SCANNED` and the completion
time, and carries every other field of the chunk record over unchanged; in
particular the hash field keeps its previous value (cleared beforehand when
in rescan mode) and is never set to a newly computed body hash. -/
theorem save_chunk_finalise_fields (rescanMode phiResult : Bool)
    (scanBatches : List (List String)) (fetchResult : PyData)
    (objectName objFetchPath : String) (chunk : DataChunkUpdate) (now : Nat) :
    ∃ c, (analyze_content_data rescanMode phiResult scanBatches fetchResult
        objectName objFetchPath chunk now).getLast? = some (ScanEvent.putChunk c) ∧
      c.status = some FileStatus.SCANNED ∧
      c.scanned_at = some now ∧
      c.hash = (if is_not_valid_chunk fetchResult then chunk.hash
                else if rescanMode then none else chunk.hash) ∧
      c.id = chunk.id ∧ c.offset = chunk.offset := by
  unfold analyze_content_data
  by_cases hvalid : is_not_valid_chunk fetchResult
  · refine ⟨save_chunk chunk now, ?_, rfl, rfl, ?_, rfl, rfl⟩
    · simp [hvalid]
    · simp [save_chunk, hvalid]
  · cases hr : rescanMode with
    | false =>
      refine ⟨save_chunk { chunk with is_phi := some phiResult } now, ?_, rfl, rfl, ?_, rfl, rfl⟩
      · simp only [hvalid, Bool.false_eq_true, if_false, List.getLast?_cons]
        simp [List.getLast?_concat]
      · simp [save_chunk, hvalid]
    | true =>
      refine ⟨save_chunk { chunk with hash := none, is_phi := some phiResult } now,
        ?_, rfl, rfl, ?_, rfl, rfl⟩
      · simp only [hvalid, Bool.false_eq_true, if_false, if_true, List.getLast?_cons]
        simp [List.getLast?_concat]
      · simp [save_chunk, hvalid]

/-- C10: `mask_data` is total, and when the email-masking branch fails
internally — an entity name containing EMAIL applied to a value with more
than one at-sign makes the two-element unpacking of `split` raise — the
exception is swallowed and the original value is returned completely
unmasked. -/
theorem mask_data_swallows_internal_failure (entity data : String)
    (hEmail : containsSub entity.toList "EMAIL".toList = true)
    (hAt : 2 ≤ data.toList.count '@') :
    mask_data entity data = data := by
  unfold mask_data maskDataCore
  have hne : ¬ data.toList = [] := by
    intro h
    rw [h] at hAt
    simp at hAt
  have hmem : '@' ∈ data.toList := by
    by_contra hcon
    rw [List.count_eq_zero.mpr hcon] at hAt
    omega
  have hcont : data.toList.contains '@' = true := by
    simpa [List.contains] using hmem
  rw [if_neg hne]
  simp only [hEmail, hcont, Bool.and_self, if_true]
  cases hsp : splitOnSep '@' data.toList with
  | nil => exact absurd hsp (splitOnSep_ne_nil '@' data.toList)
  | cons a rest =>
    cases rest with
    | nil => simpa using asString_toList data
    | cons b rest2 =>
      cases rest2 with
      | nil =>
        exfalso
        have hlen := splitOnSep_length '@' data.toList
        rw [hsp] at hlen
        simp only [List.length_cons, List.length_nil] at hlen
        omega
      | cons c rest3 => simpa using asString_toList data

/-- Witness for the C10 theorem: a value holding two at-signs is returned
unchanged by the masking. -/
theorem mask_data_swallows_internal_failure_witness :
    containsSub "EMAIL_ADDRESS".toList "EMAIL".toList = true ∧
    2 ≤ ("a@b@c".toList.count '@') ∧
    mask_data "EMAIL_ADDRESS" "a@b@c" = "a@b@c" :=
  ⟨by decide, by decide,
   mask_data_swallows_internal_failure "EMAIL_ADDRESS" "a@b@c" (by decide) (by decide)⟩

/-- C8 counterexample: the value named by the claim is the seventeen-character
string containing a space and square brackets and no at-sign, so the
email-specific branch of `mask_data` does not apply: every alphanumeric is
masked, the first character is not kept, no TLD is kept, and the result is
not the masked value the claim states. -/
theorem email_mask_literal_counterexample :
    mask_data "EMAIL_ADDRESS" "[email protected]" = "[***** *********]" ∧
    ¬ mask_data "EMAIL_ADDRESS" "[email protected]" = "a*****@*****.com" := by
  decide

theorem toList_asString (l : List Char) : (List.asString l).toList = l := rfl

/-- Splitting a list that does not contain the separator yields the single
part holding the whole list. -/
theorem splitOnSep_of_not_mem (sep : Char) (l : List Char) (h : sep ∉ l) :
    splitOnSep sep l = [l] := by
  induction l with
  | nil => rfl
  | cons x xs ih =>
    have hx : ¬ x = sep := fun he => h (List.mem_cons.mpr (Or.inl he.symm))
    have hxs : sep ∉ xs := fun hm => h (List.mem_cons.mpr (Or.inr hm))
    rw [splitOnSep, ih hxs]
    simp [hx]

/-- Splitting at the first separator occurrence: when the prefix holds no
separator, the split is the prefix followed by the split of the rest. -/
theorem splitOnSep_append (sep : Char) (l r : List Char) (h : sep ∉ l) :
    splitOnSep sep (l ++ sep :: r) = l :: splitOnSep sep r := by
  induction l with
  | nil =>
    rw [List.nil_append, splitOnSep]
    cases hs : splitOnSep sep r with
    | nil => exact absurd hs (splitOnSep_ne_nil sep r)
    | cons a rest => simp
  | cons x xs ih =>
    have hx : ¬ x = sep := fun he => h (List.mem_cons.mpr (Or.inl he.symm))
    have hxs : sep ∉ xs := fun hm => h (List.mem_cons.mpr (Or.inr hm))
    rw [List.cons_append, splitOnSep, ih hxs]
    simp [hx]

set_option maxRecDepth 100000 in
/-- C8 (amended): for every EMAIL_ADDRESS value that holds exactly one
at-sign — written as a local part without at-sign, the at-sign, and a domain
without at-sign — the masking keeps exactly the first character and the TLD
(the part of the domain after its last dot) and applies the
alphanumeric-to-asterisk substitution to everything in between, leaving other
punctuation visible; the literal value of the claim holds no at-sign and is
masked wholesale; and the finding content hash is the SHA-384 hexdigest of
the matched value. -/
theorem email_mask_rule_and_hash :
    (∀ (localPart domain : List Char), '@' ∉ localPart → '@' ∉ domain →
      localPart ≠ [] →
      (mask_data "EMAIL_ADDRESS" (localPart ++ '@' :: domain).asString).toList =
        (localPart ++ '@' :: domain).take 1 ++
          maskAlnumList (pySlice (localPart ++ '@' :: domain) 1
            ((localPart ++ '@' :: domain).length -
              ((splitOnSep '.' domain).getLastD []).length)) ++
          (splitOnSep '.' domain).getLastD []) ∧
    mask_data "EMAIL_ADDRESS" "[email protected]" = "[***** *********]" ∧
    hash_data "[email protected]" =
      "e04e02167f2299fa4669132064041a24bae8e6e8f093e6d3398c23d65416f670151dce628a14da0c1d19719454dd7e32" := by
  refine ⟨?_, by decide, by rfl⟩
  intro localPart domain hl hd hne
  have core : maskDataCore "EMAIL_ADDRESS".toList (localPart ++ '@' :: domain) =
      (localPart ++ '@' :: domain).take 1 ++
        maskAlnumList (pySlice (localPart ++ '@' :: domain) 1
          ((localPart ++ '@' :: domain).length -
            ((splitOnSep '.' domain).getLastD []).length)) ++
        (splitOnSep '.' domain).getLastD [] := by
    have hne2 : ¬ (localPart ++ '@' :: domain) = [] := by simp
    have hmem : '@' ∈ localPart ++ '@' :: domain :=
      List.mem_append.mpr (Or.inr (List.mem_cons_self '@' domain))
    have hcont : (localPart ++ '@' :: domain).contains '@' = true := by
      simp [List.contains, hmem]
    have hC : containsSub "EMAIL_ADDRESS".toList "EMAIL".toList = true := by decide
    unfold maskDataCore
    rw [if_neg hne2]
    simp only [hC, hcont, Bool.and_self, if_true]
    rw [splitOnSep_append '@' localPart domain hl, splitOnSep_of_not_mem '@' domain hd]
  calc (mask_data "EMAIL_ADDRESS" (localPart ++ '@' :: domain).asString).toList
      = maskDataCore "EMAIL_ADDRESS".toList (localPart ++ '@' :: domain) := rfl
    _ = _ := core

/-- Witness for the C8 amended theorem: the universal masking rule applied to
a value of shape one leading character, five alphanumerics, the at-sign, five
alphanumerics and a dot-com TLD produces exactly the masked shape the
specification displays. -/
theorem email_mask_rule_and_hash_witness :
    mask_data "EMAIL_ADDRESS" ("a12345" ++ "@" ++ "bcdef.com") = "a*****@*****.com" := by
  have h := email_mask_rule_and_hash.1 "a12345".toList "bcdef.com".toList
    (by decide) (by decide) (by decide)
  have hs : ("a12345".toList ++ '@' :: "bcdef.com".toList).asString =
      "a12345" ++ "@" ++ "bcdef.com" := by decide
  rw [hs] at h
  have h2 := congrArg List.asString h
  rw [asString_toList] at h2
  rw [h2]
  decide

/-- C7: for a plain file of positive size the chunk plan offsets are exactly
0, L, 2L, up to the floor of (size-1)/L times L, each chunk carrying the
per-kind limit L and the initial status `WAIT_FOR_SCAN`; and a zero-size
object is finished immediately as `SCANNED` with its chunk list untouched
(empty at discovery). -/
theorem chunk_plan_offsets_tile_object :
    (∀ (containerSize : Option Nat) (scannerId fp name : String) (size : Nat),
      0 < size →
      endsWithAny name UNSUPPORTED_EXTENSIONS = false →
      endsWithAny fp CONTAINER_TYPES = false →
      ((create_file_chunks containerSize scannerId fp name size).map (fun c => c.offset) =
        (List.range ((size - 1) / CHUNK_BYTES_CAPACITY + 1)).map
          (fun i => toString (i * CHUNK_BYTES_CAPACITY))) ∧
      (∀ c ∈ create_file_chunks containerSize scannerId fp name size,
        c.limit = CHUNK_BYTES_CAPACITY ∧ c.status = FileStatus.WAIT_FOR_SCAN)) ∧
    (∀ (env : FsEnv) (content : ObjectContent), content.size = 0 →
      collect_file_chunks env content = some { content with status := FileStatus.SCANNED }) := by
  constructor
  · intro cs sid fp name size hpos hunsup hcont
    have hceil : (size + CHUNK_BYTES_CAPACITY - 1) / CHUNK_BYTES_CAPACITY
        = (size - 1) / CHUNK_BYTES_CAPACITY + 1 := by
      have h1 : size + CHUNK_BYTES_CAPACITY - 1 = (size - 1) + CHUNK_BYTES_CAPACITY := by
        have : (1 : Nat) ≤ CHUNK_BYTES_CAPACITY := by decide
        omega
      rw [h1, Nat.add_div_right]
      decide
    constructor
    · simp [create_file_chunks, hunsup, hcont, hpos.ne', hceil, List.map_map]
    · intro c hc
      simp only [create_file_chunks, hunsup, hcont, Bool.false_eq_true, if_false,
        hpos.ne', List.mem_map, List.mem_range] at hc
      obtain ⟨i, _, rfl⟩ := hc
      exact ⟨rfl, rfl⟩
  · intro env content h0
    simp [collect_file_chunks, h0]

/-- Environment and object used to witness the zero-size branch of the chunk
plan theorem. -/
def exEnvZero : FsEnv :=
  { scannerId := "sid", initialDiskSpace := 0, freeDisk := 0,
    readData := fun _ => none, extracted := [], containerSize := fun _ => none }

def exObjZero : ObjectContent :=
  { full_path := "d/empty.txt", object_name := "empty.txt",
    fetch_path := "d/empty.txt", size := 0 }

/-- Witness for the C7 theorem: a 2.5 MB file gets chunks at offsets 0,
1000000 and 2000000; a file of exactly one chunk limit gets the single offset
0; a zero-size object is `SCANNED` with no chunks. -/
theorem chunk_plan_offsets_tile_object_witness :
    ((create_file_chunks none "sid" "d/obj.txt" "obj.txt" 2500000).map (fun c => c.offset) =
      ["0", "1000000", "2000000"]) ∧
    ((create_file_chunks none "sid" "d/obj.txt" "obj.txt" 1000000).map (fun c => c.offset) =
      ["0"]) ∧
    collect_file_chunks exEnvZero exObjZero = some { exObjZero with status := FileStatus.SCANNED } := by
  refine ⟨?_, ?_, ?_⟩
  · rw [(chunk_plan_offsets_tile_object.1 none "sid" "d/obj.txt" "obj.txt" 2500000
      (by decide) (by decide) (by decide)).1]
    decide
  · rw [(chunk_plan_offsets_tile_object.1 none "sid" "d/obj.txt" "obj.txt" 1000000
      (by decide) (by decide) (by decide)).1]
    decide
  · exact chunk_plan_offsets_tile_object.2 exEnvZero exObjZero rfl

/-- The archive fixture for C6: compressed size 50 bytes fits well under the
startup free-disk figure, but the recursively computed uncompressed total of
200 bytes exceeds the 100 bytes free at inspection time. -/
def exArchiveEnv : FsEnv :=
  { scannerId := "sid", initialDiskSpace := 1000, freeDisk := 100,
    readData := fun _ => some [ArchiveEntry.file 200], extracted := [],
    containerSize := fun _ => none }

def exArchiveObj : ObjectContent :=
  { full_path := "b/a.tar.gz", object_name := "a.tar.gz",
    fetch_path := "b/a.tar.gz", size := 50 }

/-- C6 counterexample: an archive whose uncompressed total exceeds the free
disk is not marked `SKIPPED` — `collect_file_chunks` returns `None` (the code
logs that the object is temporarily skipped and will be retried on the next
iteration), so no object record with `SKIPPED` status and no chunks are
produced. -/
theorem oversize_archive_returns_none :
    collect_file_chunks exArchiveEnv exArchiveObj = none ∧
    ¬ collect_file_chunks exArchiveEnv exArchiveObj =
        some { exArchiveObj with status := FileStatus.SKIPPED } := by
  constructor
  · decide
  · decide

/-- C6 (amended): the `SKIPPED` status comes from the compressed-size check —
an archive whose stored size reaches the startup free-disk figure is
`SKIPPED` with no chunks — while an archive whose recursively computed
uncompressed total reaches the free disk at inspection time yields `None`
(temporarily skipped, no status change, no chunks). -/
theorem archive_disk_checks :
    (∀ (env : FsEnv) (content : ObjectContent),
      endsWithAny content.fetch_path ARCHIVE_EXTENSIONS = true → content.size ≠ 0 →
      env.initialDiskSpace ≤ content.size →
      collect_file_chunks env content = some { content with status := FileStatus.SKIPPED }) ∧
    (∀ (env : FsEnv) (content : ObjectContent) (archive : List ArchiveEntry),
      endsWithAny content.fetch_path ARCHIVE_EXTENSIONS = true → content.size ≠ 0 →
      content.size < env.initialDiskSpace →
      env.readData content.fetch_path = some archive →
      env.freeDisk ≤ get_uncompressed_size archive →
      collect_file_chunks env content = none) := by
  constructor
  · intro env content harch hnz hbig
    simp [collect_file_chunks, hnz, harch, hbig]
  · intro env content archive harch hnz hsmall hread hover
    have hns : ¬ env.initialDiskSpace ≤ content.size := by omega
    simp [collect_file_chunks, hnz, harch, hns, hread, check_archive_size,
      Nat.not_lt.mpr hover]

/-- Witness for the C6 amended theorem: with a startup free-disk figure of 40
bytes the 50-byte archive is `SKIPPED`; with the original figures the
uncompressed total trips the free-disk check and the object comes back as
`None`. -/
theorem archive_disk_checks_witness :
    collect_file_chunks { exArchiveEnv with initialDiskSpace := 40 } exArchiveObj =
      some { exArchiveObj with status := FileStatus.SKIPPED } ∧
    collect_file_chunks exArchiveEnv exArchiveObj = none :=
  ⟨archive_disk_checks.1 { exArchiveEnv with initialDiskSpace := 40 } exArchiveObj
      (by decide) (by decide) (by decide),
   archive_disk_checks.2 exArchiveEnv exArchiveObj [ArchiveEntry.file 200]
      (by decide) (by decide) (by decide) rfl (by decide)⟩

/-! Fixtures for the C1 diff scenario: one object of 1 200 000 bytes with two
stored chunks at offsets 0 and 1 000 000, both SCANNED, whose stored hashes
are the SHA-384 hexdigests of the chunk bodies d0 and d1.  The connector now
returns d0 for the first chunk and the changed body d1x for the middle
chunk. -/

def exFetch : String → String → Option Nat → Nat → String := fun _ _ _ offset =>
  if offset = 0 then "d0" else "d1x"

def exDbChunk0 : DbChunk :=
  { id := "ck0", offset := "0",
    hash := some "da22ba9d8330662994a65db4b9b2ea4b6e35189498a32a99103113b82687024afc3fb04a887c3853d13888de703932f2",
    status := FileStatus.SCANNED, scanned_at := some 100 }

def exDbChunk1 : DbChunk :=
  { id := "ck1", offset := "1000000",
    hash := some "2719bf1116be3fc229198367fbf89348d715da5134a60cbd73f1b0c037c87a160ac7b68892181ebc74cfd2c177904fb1",
    status := FileStatus.SCANNED, scanned_at := some 100 }

def exMeta : FileMeta :=
  { id := "m1", file_full_path := "bucket/report.txt", file_size := 1200000,
    chunks := [exDbChunk0, exDbChunk1] }

def exSrcChunk (offset : String) : DataChunk :=
  { object_name := "report.txt", fetch_path := "bucket/report.txt",
    offset := offset, limit := 1000000, instance_id := "sid" }

def exSrcObjSameSize : ObjectContent :=
  { full_path := "bucket/report.txt", object_name := "report.txt",
    fetch_path := "bucket/report.txt", size := 1200000,
    data_chunks := [exSrcChunk "0", exSrcChunk "1000000"] }

def exSrcObjGrown : ObjectContent := { exSrcObjSameSize with size := 1200001 }

set_option maxRecDepth 1000000 in
/-- C1 counterexample: when the middle chunk of the 1 200 000-byte object
changes while the object size stays the same, the diff does not fetch,
re-hash or reset anything — the per-object loop skips every object whose
stored size equals the discovered size, so no chunk is reset, none is
created, and the stored records (the chunk at offset 1 000 000 included) stay
SCANNED with their old hashes. -/
theorem diff_same_size_mid_change_not_reset :
    (remove_deleted_files_from_db exFetch "sid" [exMeta] [exSrcObjSameSize]).resetChunkIds = [] ∧
    (remove_deleted_files_from_db exFetch "sid" [exMeta] [exSrcObjSameSize]).createdChunks = [] ∧
    (remove_deleted_files_from_db exFetch "sid" [exMeta] [exSrcObjSameSize]).stored = [exMeta] := by
  decide

set_option maxRecDepth 1000000 in
set_option maxHeartbeats 2000000 in
/-- C1 (amended): the content diff runs only for objects whose stored size
differs from the discovered size — an object with an unchanged size
contributes no update and no creation — and for a size-changed object every
non-tombstoned chunk is fetched and re-hashed, and a stored chunk whose
offset carries a different hash is reset: hash, scanned_at and labels
cleared, instance id set to the scanning agent, status `WAIT_FOR_SCAN`, while
a chunk whose hash matches stays untouched. -/
theorem diff_resets_changed_chunk_on_size_change :
    (∀ (fetch : String → String → Option Nat → Nat → String) (scannerId : String)
        (deleted : List String) (stored : List FileMeta) (obj : ObjectContent)
        (meta : FileMeta),
      stored.find? (fun m => m.file_full_path = obj.full_path) = some meta →
      meta.file_size = obj.size →
      diffOneObject fetch scannerId deleted stored obj = (stored, [], [])) ∧
    (remove_deleted_files_from_db exFetch "sid" [exMeta] [exSrcObjGrown]).resetChunkIds = ["ck1"] ∧
    (remove_deleted_files_from_db exFetch "sid" [exMeta] [exSrcObjGrown]).createdChunks = [] ∧
    (remove_deleted_files_from_db exFetch "sid" [exMeta] [exSrcObjGrown]).stored =
      [{ exMeta with
          file_size := 1200001,
          chunks := [exDbChunk0,
            { exDbChunk1 with
                hash := none, scanned_at := none, labels := none,
                instance_id := some "sid", status := FileStatus.WAIT_FOR_SCAN }] }] := by
  refine ⟨?_, by decide, by decide, by decide⟩
  intro fetch scannerId deleted stored obj meta hfind hsize
  unfold diffOneObject
  rw [hfind]
  simp [hsize]

/-- Witness for the C1 amended theorem: the unchanged-size object of the
fixture is skipped by the per-object diff. -/
theorem diff_resets_changed_chunk_on_size_change_witness :
    diffOneObject exFetch "sid" [] [exMeta] exSrcObjSameSize = ([exMeta], [], []) :=
  diff_resets_changed_chunk_on_size_change.1 exFetch "sid" [] [exMeta]
    exSrcObjSameSize exMeta (by decide) (by decide)

end PiiScanner
